import Mathlib

/-!
# Verification of the voice-interaction client's audio core

Shallow embedding of the repository's audio capture / playback / session
logic, translated from:

* `src/hooks/useAudioRecorder.ts` — the recorder hook (microphone capture,
  chunk buffering, level analysis);
* `src/utils/audioApi.ts` — the remote exchange (`sendAudioToAPI`);
* `src/hooks/useSession.ts` — session-id generation and reset;
* the `VoiceInterface` component — playback graph, toggle orchestration.

Binary blobs are byte lists; promise-returning functions land in `Except`
(an `Except.error` is a thrown/rejected value); browser nondeterminism
(microphone acquisition, analyser frame data, timestamps, `Math.random`)
is passed in explicitly as environment arguments.
-/

namespace VaiAgent

/-- A binary blob: a list of bytes.  `new Blob(chunks)` concatenates. -/
abbrev Blob := List ℕ

/-- A chunk fragment delivered by the encoding pipeline (`event.data`). -/
abbrev Chunk := List ℕ

/-- A thrown JS error, reduced to its message. -/
abbrev JsError := String

/-- Values of `MediaRecorder.state`: `'inactive' | 'recording' | 'paused'`. -/
inductive MRState where
  | inactive
  | recording
  | paused
deriving DecidableEq, Repr

/-- The relevant part of a `MediaRecorder`: its state and its stream
(identified by the id handed out by `getUserMedia`). -/
structure MediaRecorderM where
  state : MRState
  stream : ℕ
deriving DecidableEq, Repr

/-- The mutable state of the `useAudioRecorder` hook: the `useState` cells
(`isRecording`, `audioLevel`) and the `useRef` cells.  `acquiredStreams`
records every stream ever handed out by `getUserMedia` (for counting
acquisitions); `stoppedTracks` records streams whose tracks were stopped. -/
structure RecorderState where
  isRecording : Bool
  audioLevel : ℚ
  mediaRecorder : Option MediaRecorderM
  audioChunks : List Chunk
  audioContext : Option ℕ
  analyser : Option ℕ
  animationFrame : Bool
  acquiredStreams : List ℕ
  stoppedTracks : List ℕ
deriving DecidableEq, Repr

/-- The hook's state right after `useAudioRecorder()` mounts. -/
def RecorderState.init : RecorderState where
  isRecording := false
  audioLevel := 0
  mediaRecorder := none
  audioChunks := []
  audioContext := none
  analyser := none
  animationFrame := false
  acquiredStreams := []
  stoppedTracks := []

/-- The `analyzeAudio` callback from `useAudioRecorder.ts`: bail out if no analyser is
attached; otherwise read the frequency bins (`bins`, supplied by the
environment as `getByteFrequencyData` would fill them), set
`audioLevel := (sum of bins / number of bins) / 255`, and re-schedule
itself via `requestAnimationFrame`. -/
def analyzeAudio (bins : List ℕ) (s : RecorderState) : RecorderState :=
  if s.analyser = none then s
  else
    { s with
      audioLevel := ((bins.sum : ℚ) / bins.length) / 255
      animationFrame := true }

/-- Environment for one `startRecording()` call: the outcome of
`navigator.mediaDevices.getUserMedia` (a fresh stream id, or a rejection),
fresh ids for the `AudioContext` and `AnalyserNode` it constructs, and the
frequency bins observed by the first `analyzeAudio` frame. -/
structure StartEnv where
  gum : Except JsError ℕ
  ctxId : ℕ
  analyserId : ℕ
  bins : List ℕ

/-- The `startRecording` callback from `useAudioRecorder.ts`.  Guard: if a previous
recorder exists and its state is not `'inactive'`, log a warning and
return (no-op).  Otherwise await `getUserMedia` (a rejection propagates:
the `catch` logs and rethrows), build the analysis graph, start
`analyzeAudio`, clear the chunk buffer, create the `MediaRecorder`,
start it and set `isRecording`. -/
def startRecording (env : StartEnv) (s : RecorderState) :
    Except JsError RecorderState :=
  if s.mediaRecorder.any (fun mr => mr.state ≠ MRState.inactive) then
    Except.ok s
  else
    startAfterGuard env s
where
  /-- The body of `startRecording` past the already-active guard. -/
  startAfterGuard (env : StartEnv) (s : RecorderState) :
      Except JsError RecorderState :=
    match env.gum with
    | Except.error e => Except.error e
    | Except.ok streamId =>
      let s1 : RecorderState :=
        { s with
          acquiredStreams := s.acquiredStreams ++ [streamId]
          audioContext := some env.ctxId
          analyser := some env.analyserId }
      let s2 := analyzeAudio env.bins s1
      Except.ok
        { s2 with
          audioChunks := []
          mediaRecorder := some ⟨MRState.recording, streamId⟩
          isRecording := true }

/-- The `mediaRecorder.ondataavailable` handler: push the event's data
onto the chunk buffer, but only when `event.data.size > 0`. -/
def deliverChunk (c : Chunk) (s : RecorderState) : RecorderState :=
  if 0 < c.length then { s with audioChunks := s.audioChunks ++ [c] }
  else s

/-- What the promise returned by `stopRecording` resolves with, plus the
state after resolution.  `immediate` records whether `resolve` ran
synchronously inside the executor (the no-recorder branch) or only from
the asynchronous `onstop` callback. -/
structure StopOutcome where
  blob : Blob
  state : RecorderState
  immediate : Bool
deriving DecidableEq, Repr

/-- The `stopRecording` callback from `useAudioRecorder.ts`.  The executor never calls
`reject`, so the result is always `Except.ok`.  With no current recorder it
resolves at once with `new Blob()` (empty).  Otherwise the `onstop`
handler assembles the blob from the chunks in arrival order, clears the
buffer, stops every track of the recorder's stream, cancels the animation
frame, closes the audio context, resets `isRecording`/`audioLevel`,
clears the recorder ref, and resolves with the blob. -/
def stopRecording (s : RecorderState) : Except JsError StopOutcome :=
  match s.mediaRecorder with
  | none => Except.ok ⟨[], s, true⟩
  | some mr =>
    let audioBlob : Blob := s.audioChunks.flatten
    Except.ok
      ⟨audioBlob,
        { s with
          audioChunks := []
          stoppedTracks := s.stoppedTracks ++ [mr.stream]
          animationFrame := false
          audioContext := none
          isRecording := false
          audioLevel := 0
          mediaRecorder := none },
        false⟩

/-- Frame data is well formed when the analyser delivered a nonempty
array of 8-bit magnitudes (`frequencyBinCount` is `fftSize / 2 > 0`, and
`getByteFrequencyData` fills a `Uint8Array`). -/
def ValidBins (bins : List ℕ) : Prop :=
  bins ≠ [] ∧ ∀ b ∈ bins, b ≤ 255

/-- Recorder states reachable from mount by the hook's own operations,
driven by arbitrary well-formed environments. -/
inductive Reachable : RecorderState → Prop where
  | init : Reachable RecorderState.init
  | start {s s' : RecorderState} {env : StartEnv} :
      Reachable s → ValidBins env.bins →
      startRecording env s = Except.ok s' → Reachable s'
  | frame {s : RecorderState} {bins : List ℕ} :
      Reachable s → ValidBins bins → Reachable (analyzeAudio bins s)
  | chunk {s : RecorderState} {c : Chunk} :
      Reachable s → Reachable (deliverChunk c s)
  | stop {s : RecorderState} {o : StopOutcome} :
      Reachable s → stopRecording s = Except.ok o → Reachable o.state

/-! ## Remote exchange (`src/utils/audioApi.ts`) -/

/-- A `fetch` response: status code, status text, and binary body. -/
structure ResponseM where
  status : ℕ
  statusText : String
  body : Blob
deriving DecidableEq, Repr

/-- The `Response.ok` predicate as `fetch` defines it: status in the range 200–299. -/
def ResponseM.ok (r : ResponseM) : Bool :=
  200 ≤ r.status && r.status ≤ 299

/-- The `sendAudioToAPI` function from `audioApi.ts`, with the network modelled as the
response it produced: POSTs the blob + session id as multipart form data;
if `!response.ok` throws `` `API request failed: ${response.statusText}` ``,
otherwise resolves with the response body blob. -/
def sendAudioToAPI (r : ResponseM) : Except JsError Blob :=
  if r.ok then Except.ok r.body
  else Except.error ("API request failed: " ++ r.statusText)

/-! ## Session (`src/hooks/useSession.ts`)

`Date.now()` and `Math.random().toString(36).substr(2, 9)` are environment
inputs: the timestamp (a natural number, stringified in decimal by the
template literal) and the random base-36 fragment. -/

/-- The decimal digit character for `n < 10`. -/
def digitChar (n : ℕ) : Char := Char.ofNat (48 + n)

/-- The decimal digit string of a natural number, as a JS template literal
renders `Date.now()`. -/
def natDigits : ℕ → List Char
  | n =>
    if _h : n < 10 then [digitChar n]
    else
      natDigits (n / 10) ++ [digitChar (n % 10)]
decreasing_by exact Nat.div_lt_self (Nat.lt_of_lt_of_le (by norm_num) (Nat.le_of_not_lt _h)) (by norm_num)

/-- Environment of one `generateSessionId()` call. -/
structure SessionEnv where
  now : ℕ
  rand : List Char
deriving DecidableEq, Repr

/-- The `generateSessionId` helper from `useSession.ts`:
`` `session_${Date.now()}_${Math.random().toString(36).substr(2, 9)}` ``,
as its character list. -/
def generateSessionId (e : SessionEnv) : List Char :=
  "session_".data ++ natDigits e.now ++ [underscore] ++ e.rand
where
  /-- The `'_'` separator character. -/
  underscore : Char := Char.ofNat 95

/-- The `useSession` hook state: the `sessionId` `useState` cell and the
`localStorage` key-value store. -/
structure SessionState where
  sessionId : List Char
  storage : List (String × List Char)
deriving DecidableEq, Repr

/-- The fixed `localStorage` key (`SESSION_KEY`). -/
def SESSION_KEY : String := "voice_ai_session"

/-- Model of `localStorage.setItem`: replace the value stored under a key. -/
def setItem (key : String) (v : List Char)
    (store : List (String × List Char)) : List (String × List Char) :=
  (key, v) :: store.filter (fun kv => kv.1 ≠ key)

/-- The `resetSession` function from `useSession.ts`: generate a fresh id, overwrite the
stored value under `SESSION_KEY`, and replace the `sessionId` state. -/
def resetSession (e : SessionEnv) (s : SessionState) : SessionState :=
  let newSession := generateSessionId e
  { sessionId := newSession
    storage := setItem SESSION_KEY newSession s.storage }

/-! ## `VoiceInterface` component: playback graph and orchestration -/

/-- A toast raised via `useToast` (title and description). -/
structure Toast where
  title : String
  description : String
deriving DecidableEq, Repr

/-- The `VoiceInterface` component state: the processing/playing flags and
the playback `useRef` cells.  Constructed browser objects (`new Audio()`,
`new AudioContext()`, `createAnalyser()`, `createMediaElementSource`) are
identified by the value of the `constructed` counter at creation time, so
reuse versus reconstruction is observable. -/
structure VoiceState where
  recorder : RecorderState
  session : SessionState
  isProcessing : Bool
  isPlaying : Bool
  playbackLevel : ℚ
  audioElem : Option ℕ
  playCtx : Option ℕ
  playAnalyser : Option ℕ
  playSource : Option ℕ
  playAnimationFrame : Bool
  currentSrc : Option ℕ
  constructed : ℕ
deriving DecidableEq, Repr

/-- The `analyzePlayback` callback from `VoiceInterface`: bail out with no analyser,
otherwise set `playbackLevel` to the mean of the frequency bins over 255
and re-schedule via `requestAnimationFrame`. -/
def analyzePlayback (bins : List ℕ) (s : VoiceState) : VoiceState :=
  if s.playAnalyser = none then s
  else
    { s with
      playbackLevel := ((bins.sum : ℚ) / bins.length) / 255
      playAnimationFrame := true }

/-- The graph-construction prefix of `playAudioResponse`: each of the four
`if (!ref.current)` blocks constructs its object only when the ref is
still empty (`new Audio()`; `new AudioContext()`; `createAnalyser()` with
`fftSize = 256`; `createMediaElementSource` wired element → analyser →
destination).  Each construction consumes one fresh id. -/
def setupPlaybackGraph (s : VoiceState) : VoiceState :=
  let s1 :=
    match s.audioElem with
    | some _ => s
    | none => { s with audioElem := some s.constructed, constructed := s.constructed + 1 }
  let s2 :=
    match s1.playCtx with
    | some _ => s1
    | none => { s1 with playCtx := some s1.constructed, constructed := s1.constructed + 1 }
  let s3 :=
    match s2.playAnalyser with
    | some _ => s2
    | none => { s2 with playAnalyser := some s2.constructed, constructed := s2.constructed + 1 }
  match s3.playSource with
  | some _ => s3
  | none => { s3 with playSource := some s3.constructed, constructed := s3.constructed + 1 }

/-- The media events the component installs handlers for, plus the
`error` event the element can also fire (for which `playAudioResponse`
installs no handler). -/
inductive MediaEvent where
  | play
  | ended
  | error
deriving DecidableEq, Repr

/-- Dispatch of a media event on the output element.  `onplay` sets
`isPlaying` and starts `analyzePlayback` (one frame sampled from `bins`);
`onended` clears `isPlaying`, resets the level, cancels the animation
frame and revokes the object URL.  No `onerror` handler is assigned
anywhere in `playAudioResponse`, so an `error` event dispatches to
nothing: state unchanged, no toast. -/
def handleMediaEvent (ev : MediaEvent) (bins : List ℕ) (s : VoiceState) :
    VoiceState × List Toast :=
  match ev with
  | MediaEvent.play => (analyzePlayback bins { s with isPlaying := true }, [])
  | MediaEvent.ended =>
    ({ s with
        isPlaying := false
        playbackLevel := 0
        playAnimationFrame := false
        currentSrc := none }, [])
  | MediaEvent.error => (s, [])

/-- The `playAudioResponse` function from `VoiceInterface`, with the environment
supplying the fresh object URL id for `URL.createObjectURL`, the outcome
of `await audio.play()` and the analyser bins of the first `onplay`
frame.  On a `play()` rejection the `catch` clears `isPlaying`, resets
the level and raises the `Playback Error` toast; the function itself
never throws.  A fulfilled `play()` means playback began, i.e. the
`onplay` handler ran. -/
def playAudioResponse (audioBlob : Blob) (urlId : ℕ)
    (playResult : Except JsError Unit)
    (bins : List ℕ) (s : VoiceState) : VoiceState × List Toast :=
  let _audioUrl := (audioBlob, urlId)
  let s1 := setupPlaybackGraph s
  let s2 := { s1 with currentSrc := some urlId }
  match playResult with
  | Except.ok _ => handleMediaEvent MediaEvent.play bins s2
  | Except.error _ =>
    ({ s2 with isPlaying := false, playbackLevel := 0 },
      [⟨"Playback Error", "Failed to play AI response"⟩])

/-- Environment of one `handleToggleRecording()` call on the stop path:
the network's response, and the playback environment. -/
structure ToggleEnv where
  response : ResponseM
  urlId : ℕ
  playResult : Except JsError Unit
  playBins : List ℕ
  startEnv : StartEnv

/-- The `handleToggleRecording` handler from `VoiceInterface`.  Returns the new state,
the toasts raised, and the list of requests submitted to the remote
exchange (blob and session id of each `sendAudioToAPI` call).

If recording: set `isProcessing`, await `stopRecording` (whose promise
only resolves), then — with no session id — raise `Session Error` and
return, submitting nothing; with a session id, submit blob + session id;
on success play the response, on a thrown `TransportError` raise the
`Error` toast; `finally` clears `isProcessing`.

If not recording: await `startRecording`; on success raise the
`Recording Started` toast, on rejection the `Recording Error` toast. -/
def handleToggleRecording (env : ToggleEnv) (s : VoiceState) :
    VoiceState × List Toast × List (Blob × List Char) :=
  if s.recorder.isRecording then
    match stopRecording s.recorder with
    | Except.error _ => (s, [], [])
    | Except.ok outcome =>
      let s1 := { s with isProcessing := true, recorder := outcome.state }
      if s1.session.sessionId = [] then
        toggleNoSession s1
      else
        let submitted := [(outcome.blob, s1.session.sessionId)]
        match sendAudioToAPI env.response with
        | Except.error msg =>
          ({ s1 with isProcessing := false },
            [⟨"Error", msg⟩], submitted)
        | Except.ok responseBlob =>
          let p := playAudioResponse responseBlob env.urlId env.playResult
            env.playBins s1
          ({ p.1 with isProcessing := false }, p.2, submitted)
  else
    match startRecording env.startEnv s.recorder with
    | Except.ok r' =>
      ({ s with recorder := r' },
        [⟨"Recording Started", "Speak now..."⟩], [])
    | Except.error _ =>
      (s, [⟨"Recording Error", "Failed to access microphone"⟩], [])
where
  /-- The `if (!sessionId)` early return: `Session Error` toast, clear
  `isProcessing`, submit nothing. -/
  toggleNoSession (s1 : VoiceState) :
      VoiceState × List Toast × List (Blob × List Char) :=
    ({ s1 with isProcessing := false },
      [⟨"Session Error", "Session not initialized"⟩], [])

/-- The `handleResetSession` handler from `VoiceInterface`: `resetSession()` then the
`Session Reset` toast. -/
def handleResetSession (e : SessionEnv) (s : VoiceState) :
    VoiceState × List Toast :=
  ({ s with session := resetSession e s.session },
    [⟨"Session Reset", "Started a new conversation"⟩])

/-- The `VoiceInterface` state right after mount (`useState` initial
values, all refs empty; the session id before the `useEffect` fires is
the empty string). -/
def VoiceState.init : VoiceState where
  recorder := RecorderState.init
  session := ⟨[], []⟩
  isProcessing := false
  isPlaying := false
  playbackLevel := 0
  audioElem := none
  playCtx := none
  playAnalyser := none
  playSource := none
  playAnimationFrame := false
  currentSrc := none
  constructed := 0

/-- The four refs of the playback audio graph plus the construction
counter: equal `graphRefs` means the graph was reused, not rebuilt. -/
def graphRefs (s : VoiceState) :
    Option ℕ × Option ℕ × Option ℕ × Option ℕ × ℕ :=
  (s.audioElem, s.playCtx, s.playAnalyser, s.playSource, s.constructed)

/-- All four playback-graph refs are populated. -/
def GraphComplete (s : VoiceState) : Prop :=
  s.audioElem.isSome ∧ s.playCtx.isSome ∧
  s.playAnalyser.isSome ∧ s.playSource.isSome

/-- Model of `localStorage.getItem`. -/
def getItem (key : String) (store : List (String × List Char)) :
    Option (List Char) :=
  (store.find? (fun kv => kv.1 = key)).map (fun kv => kv.2)

/-- The recorder state right after a successful `startRecording` from the
mount state (stream id 0, context id 1, analyser id 2, first frame all
silent). -/
def capturingState : RecorderState where
  isRecording := true
  audioLevel := 0
  mediaRecorder := some ⟨MRState.recording, 0⟩
  audioChunks := []
  audioContext := some 1
  analyser := some 2
  animationFrame := true
  acquiredStreams := [0]
  stoppedTracks := []

/-- A `VoiceInterface` state mid-recording: recorder capturing, a
non-empty session id, nothing playing. -/
def conversationRecordingState : VoiceState :=
  { VoiceState.init with
      recorder := capturingState
      session := ⟨"s1".data, []⟩ }

/-- A toggle environment whose exchange answers `200 OK` with a one-byte
body and whose playback starts successfully. -/
def toggleEnv200 : ToggleEnv where
  response := ⟨200, "OK", [9]⟩
  urlId := 7
  playResult := Except.ok ()
  playBins := [0]
  startEnv := ⟨Except.ok 0, 1, 2, [0]⟩

/-- Component states reachable from mount by the `VoiceInterface`'s own
operations, driven by arbitrary environments: playback frames, play
calls, media events on the output element, toggle presses, and session
resets. -/
inductive VReachable : VoiceState → Prop where
  | init : VReachable VoiceState.init
  | frame {s : VoiceState} {bins : List ℕ} :
      VReachable s → VReachable (analyzePlayback bins s)
  | play {s : VoiceState} {b : Blob} {u : ℕ} {res : Except JsError Unit}
      {bins : List ℕ} :
      VReachable s → VReachable (playAudioResponse b u res bins s).1
  | media {s : VoiceState} {ev : MediaEvent} {bins : List ℕ} :
      VReachable s → VReachable (handleMediaEvent ev bins s).1
  | toggle {s : VoiceState} {env : ToggleEnv} :
      VReachable s → VReachable (handleToggleRecording env s).1
  | reset {s : VoiceState} {e : SessionEnv} :
      VReachable s → VReachable (handleResetSession e s).1

/-! ## Recorder lemmas -/

/-- The `analyzeAudio` callback touches only `audioLevel` and `animationFrame`. -/
lemma analyzeAudio_audioChunks (bins : List ℕ) (s : RecorderState) :
    (analyzeAudio bins s).audioChunks = s.audioChunks := by
  unfold analyzeAudio; split <;> rfl

/-- Folding `ondataavailable` over a list of fragments appends exactly the
nonempty ones, in arrival order. -/
lemma foldl_deliverChunk_audioChunks (cs : List Chunk) (s : RecorderState) :
    (cs.foldl (fun t c => deliverChunk c t) s).audioChunks
      = s.audioChunks ++ cs.filter (fun c => 0 < c.length) := by
  induction cs generalizing s with
  | nil => simp
  | cons c cs ih =>
    simp only [List.foldl_cons, List.filter_cons]
    by_cases hc : 0 < c.length
    · rw [ih]
      simp [deliverChunk, hc]
    · rw [ih]
      simp [deliverChunk, hc]

/-- Folding `ondataavailable` never touches the recorder handle. -/
lemma foldl_deliverChunk_mediaRecorder (cs : List Chunk) (s : RecorderState) :
    (cs.foldl (fun t c => deliverChunk c t) s).mediaRecorder
      = s.mediaRecorder := by
  induction cs generalizing s with
  | nil => rfl
  | cons c cs ih =>
    simp only [List.foldl_cons]
    rw [ih]
    unfold deliverChunk; split <;> rfl

/-- Dropping the empty fragments does not change the concatenation. -/
lemma flatten_filter_pos (cs : List Chunk) :
    (cs.filter (fun c => 0 < c.length)).flatten = cs.flatten := by
  induction cs with
  | nil => rfl
  | cons c cs ih =>
    simp only [List.filter_cons]
    by_cases hc : 0 < c.length
    · simp [hc, ih]
    · have : c = [] := List.eq_nil_of_length_eq_zero (Nat.eq_zero_of_not_pos hc)
      simp [hc, this, ih]

/-- A successful `startRecording` past the guard leaves a cleared chunk
buffer and an active recorder on the acquired stream. -/
lemma startRecording_ok (env : StartEnv) (s s' : RecorderState) (sid : ℕ)
    (hmr : ∀ mr ∈ s.mediaRecorder, mr.state = MRState.inactive)
    (hgum : env.gum = Except.ok sid)
    (h : startRecording env s = Except.ok s') :
    s'.audioChunks = [] ∧
    s'.mediaRecorder = some ⟨MRState.recording, sid⟩ := by
  unfold startRecording at h
  have hguard : s.mediaRecorder.any (fun mr => mr.state ≠ MRState.inactive)
      = false := by
    cases hs : s.mediaRecorder with
    | none => rfl
    | some mr =>
      have := hmr mr (by rw [hs]; rfl)
      simp [Option.any, this]
  rw [hguard] at h
  simp only [Bool.false_eq_true, if_false] at h
  have hbody : startRecording.startAfterGuard env s = Except.ok s' := h
  unfold startRecording.startAfterGuard at hbody
  rw [hgum] at hbody
  simp only [Except.ok.injEq] at hbody
  subst hbody
  exact ⟨rfl, rfl⟩

/-- Claim C10: The promise returned by `stopRecording` can only resolve,
never reject: for every recorder state, the result is `Except.ok` — the
executor has no rejection path, so a caller awaiting it never observes an
exception from `stop` itself, whether the recorder is idle or capturing. -/
theorem stopRecording_never_rejects (s : RecorderState) :
    ∃ o : StopOutcome, stopRecording s = Except.ok o := by
  unfold stopRecording
  cases s.mediaRecorder with
  | none => exact ⟨_, rfl⟩
  | some mr => exact ⟨_, rfl⟩

/-- Claim C3: With no recorder in flight (`Idle`), `stopRecording` resolves
synchronously with the empty blob (length `0`) and leaves the state
untouched; the initial state is `Idle`, and every resolved stop leaves the
recorder reference cleared, so the property also holds after a previous
recording has completed.  (By `stopRecording_never_rejects` it never
throws.) -/
theorem stopRecording_idle_empty_blob (s : RecorderState)
    (h : s.mediaRecorder = none) :
    stopRecording s = Except.ok ⟨[], s, true⟩ ∧
    (([] : Blob).length = 0) ∧
    RecorderState.init.mediaRecorder = none ∧
    (∀ t : RecorderState, ∀ o : StopOutcome,
      stopRecording t = Except.ok o → o.state.mediaRecorder = none) := by
  refine ⟨?_, rfl, rfl, ?_⟩
  · unfold stopRecording
    rw [h]
  · intro t o ht
    unfold stopRecording at ht
    cases hmr : t.mediaRecorder with
    | none =>
      rw [hmr] at ht
      simp only [Except.ok.injEq] at ht
      rw [← ht]
      exact hmr
    | some mr =>
      rw [hmr] at ht
      simp only [Except.ok.injEq] at ht
      rw [← ht]

/-- Witness for C3 at the mount state. -/
theorem stopRecording_idle_empty_blob_witness :
    stopRecording RecorderState.init
        = Except.ok ⟨[], RecorderState.init, true⟩ ∧
    (([] : Blob).length = 0) ∧
    RecorderState.init.mediaRecorder = none ∧
    (∀ t : RecorderState, ∀ o : StopOutcome,
      stopRecording t = Except.ok o → o.state.mediaRecorder = none) :=
  stopRecording_idle_empty_blob RecorderState.init rfl

/-- Claim C2: Calling `startRecording` while a capture is in flight (the
recorder exists and is not `'inactive'`, in particular `'recording'`) is a
complete no-op: the state is returned unchanged, so no second stream is
acquired, the in-flight chunk buffer is neither cleared nor replaced, and
no second sampling loop is started. -/
theorem startRecording_noop_while_capturing (env : StartEnv)
    (s : RecorderState) (mr : MediaRecorderM)
    (hmr : s.mediaRecorder = some mr)
    (hstate : mr.state = MRState.recording) :
    startRecording env s = Except.ok s ∧
    ∀ s' : RecorderState, startRecording env s = Except.ok s' →
      s'.acquiredStreams = s.acquiredStreams ∧
      s'.audioChunks = s.audioChunks ∧
      s'.animationFrame = s.animationFrame ∧
      s'.mediaRecorder = s.mediaRecorder := by
  have hok : startRecording env s = Except.ok s := by
    unfold startRecording
    rw [hmr]
    simp [Option.any, hstate]
  refine ⟨hok, ?_⟩
  intro s' hs'
  rw [hok] at hs'
  simp only [Except.ok.injEq] at hs'
  subst hs'
  exact ⟨rfl, rfl, rfl, rfl⟩

/-- Witness for C2: a concrete capturing state. -/
theorem startRecording_noop_while_capturing_witness :
    startRecording ⟨Except.ok 9, 10, 11, [5]⟩
        { RecorderState.init with
            mediaRecorder := some ⟨MRState.recording, 0⟩
            isRecording := true }
      = Except.ok
          { RecorderState.init with
              mediaRecorder := some ⟨MRState.recording, 0⟩
              isRecording := true } :=
  (startRecording_noop_while_capturing ⟨Except.ok 9, 10, 11, [5]⟩
    { RecorderState.init with
        mediaRecorder := some ⟨MRState.recording, 0⟩
        isRecording := true }
    ⟨MRState.recording, 0⟩ rfl rfl).1

/-- Claim C1: For a `start(); stop()` sequence (start passing the guard and
acquiring a stream), with an arbitrary list `cs` of chunk fragments
delivered by the encoding pipeline in between: the blob the stop promise
resolves with is exactly the concatenation of the fragments in arrival
order, and its binary length is the sum of all the fragments' lengths —
no chunk is lost, duplicated, or reordered.  (Fragments of size `0` are
skipped by `ondataavailable` but contribute nothing to either side.) -/
theorem stop_blob_is_concat_of_chunks (env : StartEnv) (s : RecorderState)
    (sid : ℕ) (cs : List Chunk)
    (hmr : ∀ mr ∈ s.mediaRecorder, mr.state = MRState.inactive)
    (hgum : env.gum = Except.ok sid) :
    ∀ s' : RecorderState, startRecording env s = Except.ok s' →
    ∀ o : StopOutcome,
      stopRecording (cs.foldl (fun t c => deliverChunk c t) s') = Except.ok o →
      o.blob = cs.flatten ∧
      o.blob.length = (cs.map List.length).sum := by
  intro s' hstart o hstop
  obtain ⟨hchunks, hrec⟩ := startRecording_ok env s s' sid hmr hgum hstart
  set t := cs.foldl (fun t c => deliverChunk c t) s' with ht
  have htc : t.audioChunks = cs.filter (fun c => 0 < c.length) := by
    rw [ht, foldl_deliverChunk_audioChunks, hchunks, List.nil_append]
  have htm : t.mediaRecorder = some ⟨MRState.recording, sid⟩ := by
    rw [ht, foldl_deliverChunk_mediaRecorder, hrec]
  unfold stopRecording at hstop
  rw [htm] at hstop
  simp only [Except.ok.injEq] at hstop
  have hblob : o.blob = t.audioChunks.flatten := by rw [← hstop]
  rw [htc, flatten_filter_pos] at hblob
  refine ⟨hblob, ?_⟩
  rw [hblob, List.length_flatten]

/-- Witness for C1: two nonempty fragments and an empty one. -/
theorem stop_blob_is_concat_of_chunks_witness :
    (∀ mr ∈ RecorderState.init.mediaRecorder, mr.state = MRState.inactive) ∧
    ∀ s' : RecorderState,
      startRecording ⟨Except.ok 3, 4, 5, [0, 255]⟩ RecorderState.init
        = Except.ok s' →
    ∀ o : StopOutcome,
      stopRecording
          (([[1, 2], [], [3]] : List Chunk).foldl
            (fun t c => deliverChunk c t) s') = Except.ok o →
      o.blob = ([[1, 2], [], [3]] : List Chunk).flatten ∧
      o.blob.length = (([[1, 2], [], [3]] : List Chunk).map List.length).sum :=
  ⟨(by intro mr h; simp [RecorderState.init] at h),
    stop_blob_is_concat_of_chunks ⟨Except.ok 3, 4, 5, [0, 255]⟩
      RecorderState.init 3 [[1, 2], [], [3]]
      (by intro mr h; simp [RecorderState.init] at h) rfl⟩

/-- The `analyzeAudio` callback never touches the analyser reference. -/
lemma analyzeAudio_analyser (bins : List ℕ) (s : RecorderState) :
    (analyzeAudio bins s).analyser = s.analyser := by
  unfold analyzeAudio; split <;> rfl

/-- The `ondataavailable` handler touches only the chunk buffer. -/
lemma deliverChunk_analyser (c : Chunk) (s : RecorderState) :
    (deliverChunk c s).analyser = s.analyser ∧
    (deliverChunk c s).audioLevel = s.audioLevel := by
  unfold deliverChunk; split <;> exact ⟨rfl, rfl⟩

/-- Invariant: in every reachable recorder state, if no analyser is
attached then the exposed level is exactly `0`. -/
lemma reachable_no_analyser_level_zero {s : RecorderState}
    (hs : Reachable s) : s.analyser = none → s.audioLevel = 0 := by
  induction hs with
  | init => intro _; rfl
  | @start s s' env _ _ hstart ih =>
    intro hnone
    unfold startRecording at hstart
    by_cases hguard :
        s.mediaRecorder.any (fun mr => mr.state ≠ MRState.inactive) = true
    · rw [if_pos hguard] at hstart
      simp only [Except.ok.injEq] at hstart
      subst hstart
      exact ih hnone
    · rw [if_neg hguard] at hstart
      unfold startRecording.startAfterGuard at hstart
      cases hgum : env.gum with
      | error e => rw [hgum] at hstart; cases hstart
      | ok sid =>
        rw [hgum] at hstart
        simp only [Except.ok.injEq] at hstart
        subst hstart
        rw [analyzeAudio_analyser] at hnone
        cases hnone
  | @frame s bins _ _ ih =>
    intro hnone
    rw [analyzeAudio_analyser] at hnone
    unfold analyzeAudio
    rw [if_pos hnone]
    exact ih hnone
  | @chunk s c _ ih =>
    intro hnone
    rw [(deliverChunk_analyser c s).1] at hnone
    rw [(deliverChunk_analyser c s).2]
    exact ih hnone
  | @stop s o _ hstop ih =>
    intro hnone
    unfold stopRecording at hstop
    cases hmr : s.mediaRecorder with
    | none =>
      rw [hmr] at hstop
      simp only [Except.ok.injEq] at hstop
      rw [← hstop] at hnone ⊢
      exact ih hnone
    | some mr =>
      rw [hmr] at hstop
      simp only [Except.ok.injEq] at hstop
      rw [← hstop]

/-- The arithmetic mean of a nonempty list of 8-bit magnitudes,
normalized by 255, lies in `[0, 1]`. -/
lemma mean_div_255_mem_unit (bins : List ℕ) (hne : bins ≠ [])
    (hb : ∀ b ∈ bins, b ≤ 255) :
    0 ≤ ((bins.sum : ℚ) / bins.length) / 255 ∧
    ((bins.sum : ℚ) / bins.length) / 255 ≤ 1 := by
  have hlen : 0 < (bins.length : ℚ) := by
    have := List.length_pos.mpr hne
    exact_mod_cast this
  have hmean0 : 0 ≤ ((bins.sum : ℚ) / bins.length) / 255 := by
    positivity
  have hsum : (bins.sum : ℚ) ≤ 255 * bins.length := by
    have h1 : bins.sum ≤ bins.length • 255 := List.sum_le_card_nsmul bins 255 hb
    have h2 : bins.sum ≤ bins.length * 255 := by simpa [smul_eq_mul] using h1
    have h3 : (bins.sum : ℚ) ≤ (bins.length : ℚ) * 255 := by exact_mod_cast h2
    linarith
  refine ⟨hmean0, ?_⟩
  rw [div_le_one (by norm_num : (0 : ℚ) < 255)]
  rw [div_le_iff₀ hlen]
  linarith

/-- Evaluating one successful start from the mount state. -/
lemma startRecording_init_eval :
    startRecording ⟨Except.ok 0, 1, 2, [0]⟩ RecorderState.init
      = Except.ok capturingState := by
  unfold startRecording startRecording.startAfterGuard analyzeAudio
  norm_num [RecorderState.init, capturingState]
  simp

/-- The state `capturingState` is reachable: one successful start from mount. -/
lemma capturingState_reachable : Reachable capturingState :=
  @Reachable.start RecorderState.init capturingState ⟨Except.ok 0, 1, 2, [0]⟩
    Reachable.init ⟨by decide, by decide⟩ startRecording_init_eval

/-! ## Remote exchange: C5 -/

/-- Claim C5, counterexample: The claim says the response body is returned
exactly for status `200` and any non-`200` status fails; but `fetch`'s
`response.ok` accepts the whole 2xx range, so status `204` returns the
body without any error. -/
theorem sendAudioToAPI_not_only_200 :
    sendAudioToAPI ⟨204, "No Content", [1, 2, 3]⟩ = Except.ok [1, 2, 3] ∧
    (204 : ℕ) ≠ 200 := by
  constructor
  · rfl
  · decide

/-- Claim C5, amended: `sendAudioToAPI` resolves with the response body
exactly when the status is in the 2xx success range (`response.ok`), and
for any status outside 200–299 it throws an error carrying the
response's status text. -/
theorem sendAudioToAPI_ok_iff_2xx (r : ResponseM) :
    (sendAudioToAPI r = Except.ok r.body ↔
      200 ≤ r.status ∧ r.status ≤ 299) ∧
    (¬(200 ≤ r.status ∧ r.status ≤ 299) →
      sendAudioToAPI r
        = Except.error ("API request failed: " ++ r.statusText)) := by
  unfold sendAudioToAPI ResponseM.ok
  by_cases h : 200 ≤ r.status ∧ r.status ≤ 299
  · constructor
    · simp [h.1, h.2]
    · intro hc; exact absurd h hc
  · constructor
    · constructor
      · intro heq
        rw [if_neg (by simpa [Bool.and_eq_true, decide_eq_true_iff] using h)]
          at heq
        cases heq
      · intro hc; exact absurd hc h
    · intro _
      rw [if_neg (by simpa [Bool.and_eq_true, decide_eq_true_iff] using h)]

/-- Witness for C5 (amended) at a failing status. -/
theorem sendAudioToAPI_ok_iff_2xx_witness :
    sendAudioToAPI ⟨500, "Internal Server Error", []⟩
      = Except.error ("API request failed: " ++ "Internal Server Error") :=
  (sendAudioToAPI_ok_iff_2xx ⟨500, "Internal Server Error", []⟩).2 (by decide)

/-! ## Playback graph: C6 and C8 -/

/-- The `analyzePlayback` callback never touches the playback graph refs. -/
lemma analyzePlayback_graphRefs (bins : List ℕ) (s : VoiceState) :
    graphRefs (analyzePlayback bins s) = graphRefs s := by
  unfold analyzePlayback; split <;> rfl

/-- Neither installed media handler touches the playback graph refs. -/
lemma handleMediaEvent_graphRefs (ev : MediaEvent) (bins : List ℕ)
    (s : VoiceState) :
    graphRefs (handleMediaEvent ev bins s).1 = graphRefs s := by
  cases ev with
  | play =>
    show graphRefs (analyzePlayback bins { s with isPlaying := true })
        = graphRefs s
    rw [analyzePlayback_graphRefs]
    rfl
  | ended => rfl
  | error => rfl

/-- Every call to the construction prefix leaves all four refs populated. -/
lemma setupPlaybackGraph_complete (s : VoiceState) :
    GraphComplete (setupPlaybackGraph s) := by
  unfold setupPlaybackGraph GraphComplete
  cases h1 : s.audioElem <;> cases h2 : s.playCtx <;>
    cases h3 : s.playAnalyser <;> cases h4 : s.playSource <;>
    simp [h1, h2, h3, h4]

/-- On a state whose graph is already built, the construction prefix is
the identity. -/
lemma setupPlaybackGraph_of_complete (s : VoiceState)
    (h : GraphComplete s) : setupPlaybackGraph s = s := by
  obtain ⟨h1, h2, h3, h4⟩ := h
  obtain ⟨a, ha⟩ := Option.isSome_iff_exists.mp h1
  obtain ⟨b, hb⟩ := Option.isSome_iff_exists.mp h2
  obtain ⟨c, hc⟩ := Option.isSome_iff_exists.mp h3
  obtain ⟨d, hd⟩ := Option.isSome_iff_exists.mp h4
  simp only [setupPlaybackGraph, ha, hb, hc, hd]

/-- A play call on a state with a complete graph reuses it: element,
context, analyser, source, and the construction counter are unchanged. -/
lemma playAudioResponse_reuses_graph (b : Blob) (u : ℕ)
    (res : Except JsError Unit) (bins : List ℕ) (s : VoiceState)
    (h : GraphComplete s) :
    graphRefs (playAudioResponse b u res bins s).1 = graphRefs s := by
  unfold playAudioResponse
  rw [setupPlaybackGraph_of_complete s h]
  cases res with
  | ok _ =>
    show graphRefs (handleMediaEvent MediaEvent.play bins
        { s with currentSrc := some u }).1 = graphRefs s
    rw [handleMediaEvent_graphRefs]
    rfl
  | error _ => rfl

/-- The predicate `GraphComplete` only depends on `graphRefs`. -/
lemma graphComplete_of_graphRefs_eq {s t : VoiceState}
    (h : graphRefs s = graphRefs t) (ht : GraphComplete t) :
    GraphComplete s := by
  have h1 : s.audioElem = t.audioElem := congrArg (fun p => p.1) h
  have h2 : s.playCtx = t.playCtx := congrArg (fun p => p.2.1) h
  have h3 : s.playAnalyser = t.playAnalyser := congrArg (fun p => p.2.2.1) h
  have h4 : s.playSource = t.playSource := congrArg (fun p => p.2.2.2.1) h
  unfold GraphComplete at ht ⊢
  rw [h1, h2, h3, h4]
  exact ht

/-- Folding any sequence of play calls over a complete graph preserves
all four refs and the construction counter. -/
lemma foldl_playAudioResponse_graphRefs
    (calls : List (Blob × ℕ × Except JsError Unit × List ℕ))
    (t : VoiceState) (h : GraphComplete t) :
    graphRefs (calls.foldl
        (fun u c => (playAudioResponse c.1 c.2.1 c.2.2.1 c.2.2.2 u).1) t)
      = graphRefs t := by
  induction calls generalizing t with
  | nil => rfl
  | cons c cs ih =>
    simp only [List.foldl_cons]
    have hre := playAudioResponse_reuses_graph c.1 c.2.1 c.2.2.1 c.2.2.2 t h
    rw [ih _ (graphComplete_of_graphRefs_eq hre h), hre]

/-- Claim C6: Starting from a state with no playback graph (all four refs
empty), the first `playAudioResponse` call constructs the output element,
audio context, analyser and element-source connection — exactly four
constructions — and every subsequent call, whatever its blob, URL,
`play()` outcome or analyser frames, reuses those same objects: across
any further sequence of calls all four refs and the construction counter
stay exactly as the first call left them. -/
theorem playback_graph_constructed_once (s : VoiceState) (b : Blob)
    (u : ℕ) (res : Except JsError Unit) (bins : List ℕ)
    (hfresh : s.audioElem = none ∧ s.playCtx = none ∧
      s.playAnalyser = none ∧ s.playSource = none) :
    GraphComplete (playAudioResponse b u res bins s).1 ∧
    (playAudioResponse b u res bins s).1.constructed = s.constructed + 4 ∧
    (∀ calls : List (Blob × ℕ × Except JsError Unit × List ℕ),
      graphRefs (calls.foldl
          (fun t c => (playAudioResponse c.1 c.2.1 c.2.2.1 c.2.2.2 t).1)
          (playAudioResponse b u res bins s).1)
        = graphRefs (playAudioResponse b u res bins s).1) := by
  obtain ⟨h1, h2, h3, h4⟩ := hfresh
  have hsetup : graphRefs (setupPlaybackGraph s)
      = (some s.constructed, some (s.constructed + 1),
          some (s.constructed + 2), some (s.constructed + 3),
          s.constructed + 4) := by
    unfold setupPlaybackGraph graphRefs
    rw [h1]
    simp only [h2, h3, h4]
  have hplay : graphRefs (playAudioResponse b u res bins s).1
      = graphRefs (setupPlaybackGraph s) := by
    unfold playAudioResponse
    cases res with
    | ok _ =>
      show graphRefs (handleMediaEvent MediaEvent.play bins
          { setupPlaybackGraph s with currentSrc := some u }).1 = _
      rw [handleMediaEvent_graphRefs]
      rfl
    | error _ => rfl
  have htuple := hplay.trans hsetup
  have e1 : (playAudioResponse b u res bins s).1.audioElem
      = some s.constructed := congrArg (fun p => p.1) htuple
  have e2 : (playAudioResponse b u res bins s).1.playCtx
      = some (s.constructed + 1) := congrArg (fun p => p.2.1) htuple
  have e3 : (playAudioResponse b u res bins s).1.playAnalyser
      = some (s.constructed + 2) := congrArg (fun p => p.2.2.1) htuple
  have e4 : (playAudioResponse b u res bins s).1.playSource
      = some (s.constructed + 3) := congrArg (fun p => p.2.2.2.1) htuple
  have hcomplete : GraphComplete (playAudioResponse b u res bins s).1 := by
    unfold GraphComplete
    rw [e1, e2, e3, e4]
    exact ⟨rfl, rfl, rfl, rfl⟩
  refine ⟨hcomplete, ?_, ?_⟩
  · exact congrArg (fun p => p.2.2.2.2) htuple
  · intro calls
    exact foldl_playAudioResponse_graphRefs calls _ hcomplete

/-- Witness for C6: first play call at the mount state. -/
theorem playback_graph_constructed_once_witness :
    GraphComplete
        (playAudioResponse [1] 7 (Except.ok ()) [0] VoiceState.init).1 ∧
    (playAudioResponse [1] 7 (Except.ok ()) [0] VoiceState.init).1.constructed
        = VoiceState.init.constructed + 4 ∧
    (∀ calls : List (Blob × ℕ × Except JsError Unit × List ℕ),
      graphRefs (calls.foldl
          (fun t c => (playAudioResponse c.1 c.2.1 c.2.2.1 c.2.2.2 t).1)
          (playAudioResponse [1] 7 (Except.ok ()) [0] VoiceState.init).1)
        = graphRefs
            (playAudioResponse [1] 7 (Except.ok ()) [0] VoiceState.init).1) :=
  playback_graph_constructed_once VoiceState.init [1] 7 (Except.ok ()) [0]
    ⟨rfl, rfl, rfl, rfl⟩

/-- Claim C8, amended: For every playback error raised at playback start
(the `play()` promise rejects), `playAudioResponse` returns normally (no
crash) with `isPlaying` false (Idle), the exposed playback level reset to
exactly `0`, and the `Playback Error` toast surfaced.  Errors occurring
after playback has begun fire the element's `error` event, for which no
handler is installed, and are not handled (see the counterexample). -/
theorem playback_error_at_start_resets (b : Blob) (u : ℕ) (e : JsError)
    (bins : List ℕ) (s : VoiceState) :
    (playAudioResponse b u (Except.error e) bins s).1.isPlaying = false ∧
    (playAudioResponse b u (Except.error e) bins s).1.playbackLevel = 0 ∧
    (playAudioResponse b u (Except.error e) bins s).2
      = [⟨"Playback Error", "Failed to play AI response"⟩] := by
  unfold playAudioResponse
  exact ⟨rfl, rfl, rfl⟩

/-- Claim C8, counterexample: An `error` media event fired after playback
has begun (decode failure mid-stream) is dispatched to no handler: the
state — reached by a successful `play` from mount — is returned
unchanged, so `isPlaying` stays `true`, the level stays nonzero, and no
`PlaybackError` is surfaced, contradicting the claim for errors occurring
after playback has begun. -/
theorem playback_error_after_start_unhandled :
    (handleMediaEvent MediaEvent.error []
        (playAudioResponse [1] 7 (Except.ok ()) [255] VoiceState.init).1).1
      = (playAudioResponse [1] 7 (Except.ok ()) [255] VoiceState.init).1 ∧
    (playAudioResponse [1] 7 (Except.ok ()) [255] VoiceState.init).1.isPlaying
      = true ∧
    (playAudioResponse [1] 7 (Except.ok ()) [255] VoiceState.init).1.playbackLevel
      ≠ 0 ∧
    (handleMediaEvent MediaEvent.error []
        (playAudioResponse [1] 7 (Except.ok ()) [255] VoiceState.init).1).2
      = [] := by
  refine ⟨rfl, ?_, ?_, rfl⟩
  · simp [playAudioResponse, setupPlaybackGraph, handleMediaEvent,
      analyzePlayback, VoiceState.init]
  · simp [playAudioResponse, setupPlaybackGraph, handleMediaEvent,
      analyzePlayback, VoiceState.init]

/-! ## Level sampling, capture and playback: C4 -/

/-- The `analyzePlayback` callback never touches the playback analyser
ref. -/
lemma analyzePlayback_playAnalyser (bins : List ℕ) (s : VoiceState) :
    (analyzePlayback bins s).playAnalyser = s.playAnalyser := by
  unfold analyzePlayback; split <;> rfl

/-- Every `playAudioResponse` call leaves a playback analyser attached
(the construction prefix populates it if missing). -/
lemma playAudioResponse_playAnalyser_isSome (b : Blob) (u : ℕ)
    (res : Except JsError Unit) (bins : List ℕ) (s : VoiceState) :
    (playAudioResponse b u res bins s).1.playAnalyser.isSome := by
  have hc := (setupPlaybackGraph_complete s).2.2.1
  have heq : (playAudioResponse b u res bins s).1.playAnalyser
      = (setupPlaybackGraph s).playAnalyser := by
    unfold playAudioResponse
    cases res with
    | ok _ =>
      exact congrArg (fun p => p.2.2.1)
        (handleMediaEvent_graphRefs MediaEvent.play bins
          { setupPlaybackGraph s with currentSrc := some u })
    | error _ => rfl
  rw [heq]
  exact hc

/-- A toggle press either leaves the playback analyser and level exactly
as they were, or ends with an analyser attached (the successful-exchange
branch, which plays the response). -/
lemma handleToggleRecording_playback (env : ToggleEnv) (s : VoiceState) :
    ((handleToggleRecording env s).1.playAnalyser = s.playAnalyser ∧
      (handleToggleRecording env s).1.playbackLevel = s.playbackLevel) ∨
    (handleToggleRecording env s).1.playAnalyser.isSome := by
  unfold handleToggleRecording
  dsimp only
  repeat' split
  all_goals
    first
      | exact Or.inl ⟨rfl, rfl⟩
      | exact Or.inr (playAudioResponse_playAnalyser_isSome _ _ _ _ _)

/-- Invariant: in every reachable `VoiceInterface` state, if no playback
analyser is attached then the exposed playback level is exactly `0`. -/
lemma vreachable_no_analyser_level_zero {s : VoiceState}
    (hs : VReachable s) : s.playAnalyser = none → s.playbackLevel = 0 := by
  induction hs with
  | init => intro _; rfl
  | @frame s bins _ ih =>
    intro hnone
    rw [analyzePlayback_playAnalyser] at hnone
    unfold analyzePlayback
    rw [if_pos hnone]
    exact ih hnone
  | @play s b u res bins _ _ =>
    intro hnone
    have hsome := playAudioResponse_playAnalyser_isSome b u res bins s
    rw [hnone] at hsome
    cases hsome
  | @media s ev bins _ ih =>
    intro hnone
    cases ev with
    | play =>
      have h' : (analyzePlayback bins
          { s with isPlaying := true }).playAnalyser = none := hnone
      rw [analyzePlayback_playAnalyser] at h'
      show (analyzePlayback bins { s with isPlaying := true }).playbackLevel = 0
      unfold analyzePlayback
      rw [if_pos h']
      exact ih h'
    | ended => rfl
    | error => exact ih hnone
  | @toggle s env _ ih =>
    intro hnone
    rcases handleToggleRecording_playback env s with ⟨ha, hl⟩ | hsome
    · rw [hl]
      exact ih (ha.symm.trans hnone)
    · rw [hnone] at hsome
      cases hsome
  | @reset s e _ ih =>
    intro hnone
    exact ih hnone

/-- Claim C4: sampling a frame of 8-bit frequency-bin magnitudes with an
attached analyser sets the level to the arithmetic mean of the bins
divided by 255, which lies in `[0, 1]`, and in any reachable state
without an attached analyser the exposed level is exactly `0` and
sampling leaves it at `0` — both for the recorder's sampler
(`analyzeAudio` / `audioLevel`) and for the playback sampler
(`analyzePlayback` / `playbackLevel`). -/
theorem sample_level_mean_normalized (s : RecorderState)
    (hs : Reachable s) (v : VoiceState) (hv : VReachable v)
    (bins : List ℕ) (hne : bins ≠ []) (hb : ∀ b ∈ bins, b ≤ 255) :
    (s.analyser ≠ none →
      (analyzeAudio bins s).audioLevel
          = ((bins.sum : ℚ) / bins.length) / 255 ∧
      0 ≤ (analyzeAudio bins s).audioLevel ∧
      (analyzeAudio bins s).audioLevel ≤ 1) ∧
    (s.analyser = none →
      s.audioLevel = 0 ∧ (analyzeAudio bins s).audioLevel = 0) ∧
    (v.playAnalyser ≠ none →
      (analyzePlayback bins v).playbackLevel
          = ((bins.sum : ℚ) / bins.length) / 255 ∧
      0 ≤ (analyzePlayback bins v).playbackLevel ∧
      (analyzePlayback bins v).playbackLevel ≤ 1) ∧
    (v.playAnalyser = none →
      v.playbackLevel = 0 ∧ (analyzePlayback bins v).playbackLevel = 0) := by
  obtain ⟨hmean0, hmean1⟩ := mean_div_255_mem_unit bins hne hb
  refine ⟨?_, ?_, ?_, ?_⟩
  · intro hsome
    unfold analyzeAudio
    rw [if_neg hsome]
    exact ⟨rfl, hmean0, hmean1⟩
  · intro hnone
    have hz := reachable_no_analyser_level_zero hs hnone
    refine ⟨hz, ?_⟩
    unfold analyzeAudio
    rw [if_pos hnone]
    exact hz
  · intro hsome
    unfold analyzePlayback
    rw [if_neg hsome]
    exact ⟨rfl, hmean0, hmean1⟩
  · intro hnone
    have hz := vreachable_no_analyser_level_zero hv hnone
    refine ⟨hz, ?_⟩
    unfold analyzePlayback
    rw [if_pos hnone]
    exact hz

/-- Witness for C4: sampling `[255, 0]` in a reachable capturing recorder
state and in a reachable playing component state. -/
theorem sample_level_mean_normalized_witness :
    (capturingState.analyser ≠ none →
      (analyzeAudio [255, 0] capturingState).audioLevel
          = ((([255, 0] : List ℕ).sum : ℚ) / ([255, 0] : List ℕ).length) / 255 ∧
      0 ≤ (analyzeAudio [255, 0] capturingState).audioLevel ∧
      (analyzeAudio [255, 0] capturingState).audioLevel ≤ 1) ∧
    (capturingState.analyser = none →
      capturingState.audioLevel = 0 ∧
      (analyzeAudio [255, 0] capturingState).audioLevel = 0) ∧
    ((playAudioResponse [1] 7 (Except.ok ()) [0] VoiceState.init).1.playAnalyser
        ≠ none →
      (analyzePlayback [255, 0]
          (playAudioResponse [1] 7 (Except.ok ()) [0] VoiceState.init).1).playbackLevel
          = ((([255, 0] : List ℕ).sum : ℚ) / ([255, 0] : List ℕ).length) / 255 ∧
      0 ≤ (analyzePlayback [255, 0]
          (playAudioResponse [1] 7 (Except.ok ()) [0] VoiceState.init).1).playbackLevel ∧
      (analyzePlayback [255, 0]
          (playAudioResponse [1] 7 (Except.ok ()) [0] VoiceState.init).1).playbackLevel
        ≤ 1) ∧
    ((playAudioResponse [1] 7 (Except.ok ()) [0] VoiceState.init).1.playAnalyser
        = none →
      (playAudioResponse [1] 7 (Except.ok ()) [0] VoiceState.init).1.playbackLevel
          = 0 ∧
      (analyzePlayback [255, 0]
          (playAudioResponse [1] 7 (Except.ok ()) [0] VoiceState.init).1).playbackLevel
        = 0) :=
  sample_level_mean_normalized capturingState capturingState_reachable
    (playAudioResponse [1] 7 (Except.ok ()) [0] VoiceState.init).1
    (VReachable.play VReachable.init) [255, 0] (by decide) (by decide)

/-! ## Orchestration: C7 -/

/-- The `analyzeAudio` callback touches neither the recording flag nor the recorder. -/
lemma analyzeAudio_isRecording (bins : List ℕ) (s : RecorderState) :
    (analyzeAudio bins s).isRecording = s.isRecording ∧
    (analyzeAudio bins s).mediaRecorder = s.mediaRecorder := by
  unfold analyzeAudio; split <;> exact ⟨rfl, rfl⟩

/-- The `ondataavailable` handler touches neither the recording flag nor the recorder. -/
lemma deliverChunk_isRecording (c : Chunk) (s : RecorderState) :
    (deliverChunk c s).isRecording = s.isRecording ∧
    (deliverChunk c s).mediaRecorder = s.mediaRecorder := by
  unfold deliverChunk; split <;> exact ⟨rfl, rfl⟩

/-- Invariant: in every reachable recorder state, `isRecording` implies a
live `MediaRecorder` reference. -/
lemma reachable_isRecording_mediaRecorder {s : RecorderState}
    (hs : Reachable s) : s.isRecording = true → s.mediaRecorder.isSome := by
  induction hs with
  | init => intro h; cases h
  | @start s s' env _ _ hstart ih =>
    intro hrec
    unfold startRecording at hstart
    by_cases hguard :
        s.mediaRecorder.any (fun mr => mr.state ≠ MRState.inactive) = true
    · rw [if_pos hguard] at hstart
      simp only [Except.ok.injEq] at hstart
      subst hstart
      exact ih hrec
    · rw [if_neg hguard] at hstart
      unfold startRecording.startAfterGuard at hstart
      cases hgum : env.gum with
      | error e => rw [hgum] at hstart; cases hstart
      | ok sid =>
        rw [hgum] at hstart
        simp only [Except.ok.injEq] at hstart
        subst hstart
        rfl
  | @frame s bins _ _ ih =>
    intro hrec
    rw [(analyzeAudio_isRecording bins s).1] at hrec
    rw [(analyzeAudio_isRecording bins s).2]
    exact ih hrec
  | @chunk s c _ ih =>
    intro hrec
    rw [(deliverChunk_isRecording c s).1] at hrec
    rw [(deliverChunk_isRecording c s).2]
    exact ih hrec
  | @stop s o _ hstop ih =>
    intro hrec
    unfold stopRecording at hstop
    cases hmr : s.mediaRecorder with
    | none =>
      rw [hmr] at hstop
      simp only [Except.ok.injEq] at hstop
      rw [← hstop] at hrec ⊢
      exact ih hrec
    | some mr =>
      rw [hmr] at hstop
      simp only [Except.ok.injEq] at hstop
      rw [← hstop] at hrec
      cases hrec

/-- The `analyzePlayback` callback does not touch `isPlaying`. -/
lemma analyzePlayback_isPlaying (bins : List ℕ) (s : VoiceState) :
    (analyzePlayback bins s).isPlaying = s.isPlaying := by
  unfold analyzePlayback; split <;> rfl

/-- Claim C7: A `toggle()` that stops a recording (reachable recorder with
`isRecording`, not playing) enters the Sending phase only with a
non-empty session id: with an absent/empty id it surfaces the
`Session Error` toast, submits nothing to the remote exchange, and
returns to Idle (processing off, recording stopped, not playing); with a
non-empty id it submits exactly the recorded blob with that session id,
and the transition to Playing happens on a successful exchange (and
successful playback start) and only then — a failed exchange leaves it
not playing. -/
theorem toggle_sending_requires_session (env : ToggleEnv) (s : VoiceState)
    (hreach : Reachable s.recorder)
    (hrec : s.recorder.isRecording = true)
    (hplay : s.isPlaying = false) :
    (s.session.sessionId = [] →
      (handleToggleRecording env s).2.2 = [] ∧
      (handleToggleRecording env s).2.1
        = [⟨"Session Error", "Session not initialized"⟩] ∧
      (handleToggleRecording env s).1.isProcessing = false ∧
      (handleToggleRecording env s).1.isPlaying = false ∧
      (handleToggleRecording env s).1.recorder.isRecording = false) ∧
    (s.session.sessionId ≠ [] →
      (∃ o : StopOutcome, stopRecording s.recorder = Except.ok o ∧
        (handleToggleRecording env s).2.2
          = [(o.blob, s.session.sessionId)]) ∧
      (env.response.ok = false →
        (handleToggleRecording env s).1.isPlaying = false) ∧
      (env.response.ok = true → env.playResult = Except.ok () →
        (handleToggleRecording env s).1.isPlaying = true)) := by
  obtain ⟨mr, hmr⟩ := Option.isSome_iff_exists.mp
    (reachable_isRecording_mediaRecorder hreach hrec)
  obtain ⟨o, ho, horec⟩ :
      ∃ o : StopOutcome, stopRecording s.recorder = Except.ok o ∧
        o.state.isRecording = false := by
    unfold stopRecording
    rw [hmr]
    exact ⟨_, rfl, rfl⟩
  constructor
  · intro hsid
    simp only [handleToggleRecording, hrec, ho, if_pos hsid, if_true,
      handleToggleRecording.toggleNoSession]
    exact ⟨trivial, trivial, trivial, hplay, horec⟩
  · intro hsid
    cases hok : env.response.ok with
    | false =>
      have hsend : sendAudioToAPI env.response
          = Except.error ("API request failed: " ++ env.response.statusText) := by
        unfold sendAudioToAPI
        rw [hok]
        simp
      simp only [handleToggleRecording, hrec, ho, if_neg hsid, if_true, hsend]
      exact ⟨⟨o, rfl, rfl⟩, fun _ => hplay, fun hc => Bool.noConfusion hc⟩
    | true =>
      have hsend : sendAudioToAPI env.response
          = Except.ok env.response.body := by
        unfold sendAudioToAPI
        rw [hok]
        simp
      simp only [handleToggleRecording, hrec, ho, if_neg hsid, if_true, hsend]
      refine ⟨⟨o, rfl, rfl⟩, fun hc => Bool.noConfusion hc, ?_⟩
      intro _ hplayok
      simp only [playAudioResponse, hplayok, handleMediaEvent]
      rw [analyzePlayback_isPlaying]

/-- Witness for C7: stopping a capture with session id `"s1"` and a
`200 OK` exchange. -/
theorem toggle_sending_requires_session_witness :
    (conversationRecordingState.session.sessionId = [] →
      (handleToggleRecording toggleEnv200 conversationRecordingState).2.2 = [] ∧
      (handleToggleRecording toggleEnv200 conversationRecordingState).2.1
        = [⟨"Session Error", "Session not initialized"⟩] ∧
      (handleToggleRecording toggleEnv200 conversationRecordingState).1.isProcessing = false ∧
      (handleToggleRecording toggleEnv200 conversationRecordingState).1.isPlaying = false ∧
      (handleToggleRecording toggleEnv200 conversationRecordingState).1.recorder.isRecording = false) ∧
    (conversationRecordingState.session.sessionId ≠ [] →
      (∃ o : StopOutcome,
        stopRecording conversationRecordingState.recorder = Except.ok o ∧
        (handleToggleRecording toggleEnv200 conversationRecordingState).2.2
          = [(o.blob, conversationRecordingState.session.sessionId)]) ∧
      (toggleEnv200.response.ok = false →
        (handleToggleRecording toggleEnv200 conversationRecordingState).1.isPlaying = false) ∧
      (toggleEnv200.response.ok = true →
        toggleEnv200.playResult = Except.ok () →
        (handleToggleRecording toggleEnv200 conversationRecordingState).1.isPlaying = true)) :=
  toggle_sending_requires_session toggleEnv200 conversationRecordingState
    capturingState_reachable rfl rfl

/-! ## Session ids: C9 -/

/-- A decimal digit character's code point. -/
lemma digitChar_toNat {n : ℕ} (h : n < 10) :
    (digitChar n).toNat = 48 + n := by
  have hv : Nat.isValidChar (48 + n) := Or.inl (by omega)
  rw [digitChar, Char.ofNat, dif_pos hv]
  rfl

/-- Every character of the decimal rendering is a digit (code points
48–57). -/
lemma mem_natDigits_toNat (n : ℕ) :
    ∀ c ∈ natDigits n, 48 ≤ c.toNat ∧ c.toNat ≤ 57 := by
  induction n using Nat.strong_induction_on with
  | _ n ih =>
    intro c hc
    rw [natDigits] at hc
    by_cases h : n < 10
    · rw [dif_pos h] at hc
      simp only [List.mem_singleton] at hc
      subst hc
      rw [digitChar_toNat h]
      omega
    · rw [dif_neg h] at hc
      rcases List.mem_append.mp hc with h1 | h2
      · exact ih (n / 10) (Nat.div_lt_self (by omega) (by omega)) c h1
      · simp only [List.mem_singleton] at h2
        subst h2
        rw [digitChar_toNat (Nat.mod_lt n (by omega))]
        have := Nat.mod_lt n (show 0 < 10 by omega)
        omega

/-- No character of the decimal rendering is the `'_'` separator. -/
lemma natDigits_ne_underscore (n : ℕ) :
    ∀ c ∈ natDigits n, c ≠ generateSessionId.underscore := by
  intro c hc heq
  have h1 := (mem_natDigits_toNat n c hc).2
  have h2 : c.toNat = 95 := by
    rw [heq]
    rfl
  omega

/-- The decimal rendering decodes back to its number: folding the digit
values from any accumulator. -/
lemma foldl_natDigits (n : ℕ) : ∀ a : ℕ,
    (natDigits n).foldl (fun a c => 10 * a + (c.toNat - 48)) a
      = a * 10 ^ (natDigits n).length + n := by
  induction n using Nat.strong_induction_on with
  | _ n ih =>
    intro a
    rw [natDigits]
    by_cases h : n < 10
    · rw [dif_pos h]
      simp only [List.foldl_cons, List.foldl_nil, List.length_singleton]
      rw [digitChar_toNat h]
      ring_nf
      omega
    · rw [dif_neg h]
      rw [List.foldl_append]
      rw [ih (n / 10) (Nat.div_lt_self (by omega) (by omega)) a]
      simp only [List.foldl_cons, List.foldl_nil, List.length_append,
        List.length_singleton]
      rw [digitChar_toNat (Nat.mod_lt n (by omega))]
      have hmod : 48 + n % 10 - 48 = n % 10 := by omega
      rw [hmod]
      rw [pow_succ]
      have hdm := Nat.div_add_mod n 10
      ring_nf
      omega

/-- The decimal rendering is injective. -/
lemma natDigits_inj {m n : ℕ} (h : natDigits m = natDigits n) : m = n := by
  have hm := foldl_natDigits m 0
  have hn := foldl_natDigits n 0
  rw [h] at hm
  omega

/-- Splitting on a separator that occurs in neither prefix is
unambiguous. -/
lemma append_sep_inj (sep : Char) :
    ∀ a b r₁ r₂ : List Char, (∀ c ∈ a, c ≠ sep) → (∀ c ∈ b, c ≠ sep) →
      a ++ sep :: r₁ = b ++ sep :: r₂ → a = b ∧ r₁ = r₂ := by
  intro a
  induction a with
  | nil =>
    intro b r₁ r₂ _ hb h
    cases b with
    | nil =>
      simp only [List.nil_append, List.cons.injEq] at h
      exact ⟨rfl, h.2⟩
    | cons y ys =>
      simp only [List.nil_append, List.cons_append, List.cons.injEq] at h
      exact absurd h.1.symm (hb y (List.mem_cons_self y ys))
  | cons x xs ih =>
    intro b r₁ r₂ ha hb h
    cases b with
    | nil =>
      simp only [List.cons_append, List.nil_append, List.cons.injEq] at h
      exact absurd h.1 (ha x (List.mem_cons_self x xs))
    | cons y ys =>
      simp only [List.cons_append, List.cons.injEq] at h
      obtain ⟨hxy, htail⟩ := h
      obtain ⟨he, hr⟩ := ih ys r₁ r₂
        (fun c hc => ha c (List.mem_cons_of_mem x hc))
        (fun c hc => hb c (List.mem_cons_of_mem y hc)) htail
      exact ⟨by rw [hxy, he], hr⟩

/-- The helper `generateSessionId` is injective in its environment: equal ids force
equal timestamps and equal random fragments. -/
lemma generateSessionId_inj {e₁ e₂ : SessionEnv}
    (h : generateSessionId e₁ = generateSessionId e₂) : e₁ = e₂ := by
  unfold generateSessionId at h
  simp only [List.append_assoc, List.singleton_append] at h
  have h2 := List.append_cancel_left h
  obtain ⟨hd, hr⟩ := append_sep_inj generateSessionId.underscore
    (natDigits e₁.now) (natDigits e₂.now) e₁.rand e₂.rand
    (natDigits_ne_underscore e₁.now) (natDigits_ne_underscore e₂.now) h2
  obtain ⟨n₁, r₁⟩ := e₁
  obtain ⟨n₂, r₂⟩ := e₂
  simp only at hd hr
  rw [natDigits_inj hd, hr]

/-- A generated session id is never the empty string. -/
lemma generateSessionId_ne_nil (e : SessionEnv) :
    generateSessionId e ≠ [] := by
  unfold generateSessionId
  simp

/-- Claim C9, counterexample: Two consecutive `resetSession()` calls that
observe the same `Date.now()` millisecond and the same random base-36
fragment produce *equal* session ids — the code does not guarantee
unconditional distinctness. -/
theorem resetSession_same_env_equal_ids :
    (resetSession ⟨5, "abc".data⟩
        (resetSession ⟨5, "abc".data⟩ ⟨[], []⟩)).sessionId
      = (resetSession ⟨5, "abc".data⟩ ⟨[], []⟩).sessionId ∧
    (resetSession ⟨5, "abc".data⟩ ⟨[], []⟩).sessionId ≠ [] :=
  ⟨rfl, generateSessionId_ne_nil ⟨5, "abc".data⟩⟩

/-- Claim C9, amended: Two consecutive `resetSession()` calls produce
non-empty session ids, distinct whenever the two calls observe different
environments (timestamp or random fragment); each call replaces the
value stored under the fixed key with the fresh id (and the state cell
with a new value, never mutating the old string); and
`handleResetSession` leaves the conversation's recording / processing /
playing state untouched. -/
theorem resetSession_twice_distinct (e₁ e₂ : SessionEnv)
    (s : SessionState) (hne : e₁ ≠ e₂) :
    (resetSession e₁ s).sessionId ≠ [] ∧
    (resetSession e₂ (resetSession e₁ s)).sessionId ≠ [] ∧
    (resetSession e₁ s).sessionId
      ≠ (resetSession e₂ (resetSession e₁ s)).sessionId ∧
    getItem SESSION_KEY (resetSession e₁ s).storage
      = some (resetSession e₁ s).sessionId ∧
    getItem SESSION_KEY (resetSession e₂ (resetSession e₁ s)).storage
      = some (resetSession e₂ (resetSession e₁ s)).sessionId ∧
    (∀ v : VoiceState, ∀ e : SessionEnv,
      (handleResetSession e v).1.recorder = v.recorder ∧
      (handleResetSession e v).1.isProcessing = v.isProcessing ∧
      (handleResetSession e v).1.isPlaying = v.isPlaying ∧
      (handleResetSession e v).1.playbackLevel = v.playbackLevel) := by
  refine ⟨generateSessionId_ne_nil e₁, generateSessionId_ne_nil e₂, ?_, ?_, ?_, ?_⟩
  · intro h
    exact hne (generateSessionId_inj h)
  · simp [resetSession, getItem, setItem]
  · simp [resetSession, getItem, setItem]
  · intro v e
    exact ⟨rfl, rfl, rfl, rfl⟩

/-- Witness for C9 (amended): same millisecond, different random
fragments. -/
theorem resetSession_twice_distinct_witness :
    (resetSession ⟨5, "abc".data⟩ ⟨[], []⟩).sessionId ≠ [] ∧
    (resetSession ⟨5, "abd".data⟩
        (resetSession ⟨5, "abc".data⟩ ⟨[], []⟩)).sessionId ≠ [] ∧
    (resetSession ⟨5, "abc".data⟩ ⟨[], []⟩).sessionId
      ≠ (resetSession ⟨5, "abd".data⟩
          (resetSession ⟨5, "abc".data⟩ ⟨[], []⟩)).sessionId ∧
    getItem SESSION_KEY (resetSession ⟨5, "abc".data⟩ ⟨[], []⟩).storage
      = some (resetSession ⟨5, "abc".data⟩ ⟨[], []⟩).sessionId ∧
    getItem SESSION_KEY
        (resetSession ⟨5, "abd".data⟩
          (resetSession ⟨5, "abc".data⟩ ⟨[], []⟩)).storage
      = some (resetSession ⟨5, "abd".data⟩
          (resetSession ⟨5, "abc".data⟩ ⟨[], []⟩)).sessionId ∧
    (∀ v : VoiceState, ∀ e : SessionEnv,
      (handleResetSession e v).1.recorder = v.recorder ∧
      (handleResetSession e v).1.isProcessing = v.isProcessing ∧
      (handleResetSession e v).1.isPlaying = v.isPlaying ∧
      (handleResetSession e v).1.playbackLevel = v.playbackLevel) :=
  resetSession_twice_distinct ⟨5, "abc".data⟩ ⟨5, "abd".data⟩ ⟨[], []⟩
    (by decide)

end VaiAgent
